import Mathlib

/-!
Verification of `scrapegraphai/nodes/search_link_node.py` (`SearchLinkNode`).

The Python pipeline state is a `dict` from string keys to heterogeneous
values; we embed it as an association list `PyDict` over an inductive
`Value` type mirroring the Python values the node manipulates (`None`,
booleans, strings, lists, dicts).  Dictionary operations (`d.get(k)`,
`d.get(k, default)`, `d[k] = v`, `d.update(other)`) are embedded with
the Python semantics: lookup of an absent key via `get` yields `None`,
assignment overwrites in place keeping insertion order, `update` applies
assignment entry by entry so that later entries overwrite earlier ones.

The LLM chain `merge_prompt | self.llm_model | output_parser` (a fixed
prompt template rendered with the variables `content`, `links` and
`user_prompt`, piped into the model and then into `JsonOutputParser`) is
embedded as a function from the variable bindings (`ChainInput`) to
`Except String PyDict`: an `Except.error` covers both a failing backend
invocation and a response that fails to parse, both of which raise in
Python and propagate out of `execute` uncaught.

`execute` mutates the state dict of the caller in place (only via the final
`state.update({"relevant_links": ...})`) and returns it.  To observe both
the return value and the mutation, the embedding returns an `ExecResult`
record carrying the ordered trace of backend invocations, the returned
value or propagated exception, and the contents of the state dict of
the caller after the call.
-/

namespace SearchLink

/-- A Python value, restricted to the shapes `SearchLinkNode` manipulates. -/
inductive Value : Type where
  /-- Python `None`. -/
  | none : Value
  /-- A Python boolean. -/
  | bool : Bool → Value
  /-- A Python string. -/
  | str : String → Value
  /-- A Python list. -/
  | vlist : List Value → Value
  /-- A Python dict, as an insertion-ordered association list. -/
  | vdict : List (String × Value) → Value

/-- A Python dict with string keys, e.g. the pipeline state. -/
abbrev PyDict := List (String × Value)

/-- Lookup of a key in an association list (first matching entry). -/
def alFind? {α : Type} (d : List (String × α)) (k : String) : Option α :=
  (d.find? (fun kv => kv.1 == k)).map (fun kv => kv.2)

/-- Python `d.get(k, default)`. -/
def alGetD {α : Type} (d : List (String × α)) (k : String) (default : α) : α :=
  (alFind? d k).getD default

/-- Python `d.get(k)` on a value dict: yields `None` for an absent key. -/
def dget (d : PyDict) (k : String) : Value :=
  alGetD d k Value.none

/-- Python `d[k] = v`: overwrite in place if the key is present (dict keys
are unique, so replacing the first matching entry is faithful), append
otherwise. -/
def setItem {α : Type} : List (String × α) → String → α → List (String × α)
  | [], k, v => [(k, v)]
  | kv :: rest, k, v =>
      if kv.1 == k then (k, v) :: rest else kv :: setItem rest k v

/-- Python `d.update(other)`: assign each entry of `other` into `d` in
order, so later entries overwrite earlier ones for the same key. -/
def dictUpdate {α : Type} (d other : List (String × α)) : List (String × α) :=
  other.foldl (fun acc kv => setItem acc kv.1 kv.2) d

/-- Python truthiness of a `Value` (used by `not self.verbose`). -/
def pyTruthy : Value → Bool
  | Value.none => false
  | Value.bool b => b
  | Value.str s => !(s == "")
  | Value.vlist xs => !xs.isEmpty
  | Value.vdict d => !d.isEmpty

/-- Python iteration over a value, as used by the `for` loop: lists yield
their elements, strings their characters, dicts their keys; iterating
`None` or a boolean raises `TypeError`. -/
def pyIter : Value → Except String (List Value)
  | Value.vlist xs => Except.ok xs
  | Value.str s => Except.ok (s.data.map (fun c => Value.str (String.mk [c])))
  | Value.vdict d => Except.ok (d.map (fun kv => Value.str kv.1))
  | Value.none => Except.error "TypeError: argument of type NoneType is not iterable"
  | Value.bool _ => Except.error "TypeError: argument of type bool is not iterable"

/-- The variable bindings passed to `merge_chain.invoke`: the current
chunk (`content`), the full link list (`links`) and the task description
(`user_prompt`), exactly the dict built at the invocation site. -/
structure ChainInput where
  content : Value
  links : Value
  user_prompt : Value

/-- A configuration value: either a plain Python value or an LLM model
handle.  The handle is embedded as the semantics of the composed chain
`merge_prompt | model | output_parser` on given variable bindings:
`Except.error` covers a failing backend call and a parse failure, both of
which raise and propagate in Python. -/
inductive ConfigValue : Type where
  /-- A plain value (e.g. the `verbose` flag). -/
  | val : Value → ConfigValue
  /-- A model handle, by the semantics of its prompt-model-parser chain. -/
  | model : (ChainInput → Except String PyDict) → ConfigValue

/-- The `node_config` dict passed to the constructor. -/
abbrev NodeConfig := List (String × ConfigValue)

/-- Python truthiness of a `ConfigValue` (model objects are truthy). -/
def cvTruthy : ConfigValue → Bool
  | ConfigValue.val v => pyTruthy v
  | ConfigValue.model _ => true

/-- The fields of a constructed `SearchLinkNode` that `execute` reads.
`super().__init__` stores `node_name`, the node type, the input/output
expressions and `node_config` on the instance; of these only `node_name`
(used in the log line) is kept, the others do not affect `execute`. -/
structure SearchLinkNode where
  node_name : String
  llm_model : ConfigValue
  verbose : ConfigValue

/-- Python subscription `node_config["llm_model"]` on an `Optional[dict]`:
`TypeError` if the dict is `None`, `KeyError` if the key is absent. -/
def pySubscript (node_config : Option NodeConfig) (k : String) :
    Except String ConfigValue :=
  match node_config with
  | Option.none => Except.error "TypeError: NoneType object is not subscriptable"
  | Option.some cfg =>
      match alFind? cfg k with
      | Option.none => Except.error ("KeyError: " ++ k)
      | Option.some v => Except.ok v

/-- The expression `False if node_config is None else
node_config.get("verbose", False)` from the constructor. -/
def computeVerbose (node_config : Option NodeConfig) : ConfigValue :=
  match node_config with
  | Option.none => ConfigValue.val (Value.bool false)
  | Option.some cfg => alGetD cfg "verbose" (ConfigValue.val (Value.bool false))

/-- `SearchLinkNode.__init__`.  `super().__init__` (`BaseNode`, not under
src/) is modelled from the spec as plain attribute storage that does not
fail for the arguments of this node; the body then evaluates
`node_config["llm_model"]`, which raises when `node_config` is `None` or
lacks the key, and then the `verbose` conditional. -/
def searchLinkNodeInit (node_config : Option NodeConfig)
    (node_name : String) : Except String SearchLinkNode :=
  match pySubscript node_config "llm_model" with
  | Except.error e => Except.error e
  | Except.ok m =>
      Except.ok { node_name := node_name, llm_model := m,
                  verbose := computeVerbose node_config }

/-- `tqdm(iterable, desc=..., disable=...)`: wraps an iterable, rendering
a progress bar on stderr unless `disable` is set; the yielded elements
and their order are exactly those of the underlying iterable, so the
`disable` flag has no effect on the data. -/
def tqdm (iterable : List Value) (disable : Bool) : List Value :=
  iterable

/-- Invoking the composed chain whose model handle is `m`: a non-model
configuration value is not a Runnable and raises at pipe time. -/
def invokeChain (m : ConfigValue) (inp : ChainInput) : Except String PyDict :=
  match m with
  | ConfigValue.model f => f inp
  | ConfigValue.val _ => Except.error "TypeError: object is not a Runnable"

/-- The `for i, chunk in enumerate(tqdm(parsed_content_chunks, ...))` loop
body of `execute`: per chunk, build the chain, invoke it on
`{"content": chunk, "links": links, "user_prompt": user_prompt}`, and on
success `relevant_links.update(answer)`; an exception aborts the loop and
propagates.  Returns the ordered trace of invocation inputs together with
the final accumulator or the propagated exception. -/
def processChunks (llm : ConfigValue) (links user_prompt : Value) :
    List Value → PyDict → List ChainInput × Except String PyDict
  | [], relevant_links => ([], Except.ok relevant_links)
  | chunk :: rest, relevant_links =>
      let inp : ChainInput :=
        { content := chunk, links := links, user_prompt := user_prompt }
      match invokeChain llm inp with
      | Except.error e => ([inp], Except.error e)
      | Except.ok answer =>
          let r :=
            processChunks llm links user_prompt rest
              (dictUpdate relevant_links answer)
          (inp :: r.1, r.2)

/-- Observable outcome of one call to `SearchLinkNode.execute`. -/
structure ExecResult where
  /-- Inputs of the backend invocations made, in invocation order. -/
  trace : List ChainInput
  /-- The returned state, or the exception propagated to the caller. -/
  ret : Except String PyDict
  /-- Contents of the state dict of the caller after the call (the state is
  mutated in place only by the final `state.update`). -/
  finalState : PyDict

/-- `SearchLinkNode.execute(state)`.  Reads `user_prompt`, `link_urls`
and `parsed_doc` via `state.get` (absent keys yield `None`), iterates
over the chunks, invokes the chain once per chunk accumulating
`relevant_links`, and finally executes
`state.update({"relevant_links": relevant_links})` and returns `state`.
The initial `self.logger.info` line is log output only and is not
modelled. -/
def execute (node : SearchLinkNode) (state : PyDict) : ExecResult :=
  let user_prompt := dget state "user_prompt"
  let links := dget state "link_urls"
  let parsed_content_chunks := dget state "parsed_doc"
  match pyIter parsed_content_chunks with
  | Except.error e => { trace := [], ret := Except.error e, finalState := state }
  | Except.ok chunks =>
      match processChunks node.llm_model links user_prompt
          (tqdm chunks (!(cvTruthy node.verbose))) [] with
      | (tr, Except.error e) =>
          { trace := tr, ret := Except.error e, finalState := state }
      | (tr, Except.ok relevant_links) =>
          let state2 := dictUpdate state [("relevant_links", Value.vdict relevant_links)]
          { trace := tr, ret := Except.ok state2, finalState := state2 }

/-! ### Dictionary lemmas -/

theorem alFind?_cons {α : Type} (kv : String × α) (rest : List (String × α)) (k : String) :
    alFind? (kv :: rest) k = if kv.1 == k then some kv.2 else alFind? rest k := by
  by_cases h : kv.1 == k <;> simp [alFind?, List.find?, h]

theorem alFind?_setItem_self {α : Type} (d : List (String × α)) (k : String) (v : α) :
    alFind? (setItem d k v) k = some v := by
  induction d with
  | nil => simp [setItem, alFind?_cons]
  | cons kv rest ih =>
      by_cases h : kv.1 == k
      · simp [setItem, h, alFind?_cons]
      · simp [setItem, h, alFind?_cons, ih]

theorem alFind?_setItem_ne {α : Type} (d : List (String × α)) (k k' : String) (v : α)
    (hne : k' ≠ k) :
    alFind? (setItem d k v) k' = alFind? d k' := by
  have hkk : (k == k') = false := by
    simp only [beq_eq_false_iff_ne]
    exact fun h => hne h.symm
  induction d with
  | nil => simp [setItem, alFind?_cons, hkk, alFind?]
  | cons kv rest ih =>
      by_cases h : kv.1 == k
      · have h1 : kv.1 = k := by simpa using h
        simp [setItem, h, alFind?_cons, hkk, h1]
      · simp [setItem, h, alFind?_cons, ih]

theorem dget_setItem_self (d : PyDict) (k : String) (v : Value) :
    dget (setItem d k v) k = v := by
  simp [dget, alGetD, alFind?_setItem_self]

theorem dget_setItem_ne (d : PyDict) (k k' : String) (v : Value) (hne : k' ≠ k) :
    dget (setItem d k v) k' = dget d k' := by
  simp [dget, alGetD, alFind?_setItem_ne d k k' v hne]

theorem dictUpdate_singleton {α : Type} (d : List (String × α)) (k : String) (v : α) :
    dictUpdate d [(k, v)] = setItem d k v := rfl

/-! ### Loop lemmas -/

theorem processChunks_ok_trace (llm : ConfigValue) (links up : Value) :
    ∀ (chunks : List Value) (acc out : PyDict),
      (processChunks llm links up chunks acc).2 = Except.ok out →
      (processChunks llm links up chunks acc).1 =
        chunks.map (fun c => { content := c, links := links, user_prompt := up }) := by
  intro chunks
  induction chunks with
  | nil => intro acc out _; rfl
  | cons chunk rest ih =>
      intro acc out h
      simp only [processChunks] at h ⊢
      split at h
      next e heq => simp at h
      next answer heq =>
          exact congrArg
            (List.cons { content := chunk, links := links, user_prompt := up })
            (ih (dictUpdate acc answer) out h)

/-- Unfolding of `execute` when `parsed_doc` holds a list of chunks: the
`for` loop runs over exactly those chunks. -/
theorem execute_vlist (node : SearchLinkNode) (st : PyDict) (chunks : List Value)
    (hdoc : dget st "parsed_doc" = Value.vlist chunks) :
    execute node st =
      match processChunks node.llm_model (dget st "link_urls")
          (dget st "user_prompt") chunks [] with
      | (tr, Except.error e) =>
          { trace := tr, ret := Except.error e, finalState := st }
      | (tr, Except.ok rl) =>
          { trace := tr,
            ret := Except.ok (dictUpdate st [("relevant_links", Value.vdict rl)]),
            finalState := dictUpdate st [("relevant_links", Value.vdict rl)] } := by
  simp only [execute, hdoc, pyIter, tqdm]

/-! ### Concrete artifacts used by the theorems below -/

/-- A model handle whose chain always parses to the empty mapping. -/
def stubEmptyModel : ConfigValue := ConfigValue.model (fun _ => Except.ok [])

/-- A model handle whose chain always raises. -/
def stubFailModel : ConfigValue :=
  ConfigValue.model (fun _ => Except.error "OutputParserException")

/-- A `SearchLinkNode` around the given model handle, with `verbose=False`. -/
def nodeOf (m : ConfigValue) : SearchLinkNode :=
  { node_name := "SearchRelevantLinkNode", llm_model := m,
    verbose := ConfigValue.val (Value.bool false) }

/-- A state carrying `link_urls` and a one-chunk `parsed_doc` but no
`user_prompt` key. -/
def stateNoPrompt : PyDict :=
  [("link_urls", Value.vlist []),
   ("parsed_doc", Value.vlist [Value.str "chunk1"])]

/-! ### Claims -/

/-- Claim C1: the claim says that executing on a state missing the required
input key `user_prompt` fails before any backend invocation.  The code
violates this: it reads the key via `state.get("user_prompt")`, which yields
`None` instead of raising the `KeyError` promised by the docstring of
the method itself, and then makes a backend invocation carrying
`user_prompt = None` and completes successfully.  This theorem evaluates the
code at the failing input: one invocation is made (with `user_prompt`
bound to `None`) and the call returns normally. -/
theorem missing_user_prompt_invokes_backend :
    (execute (nodeOf stubEmptyModel) stateNoPrompt).trace =
      [{ content := Value.str "chunk1", links := Value.vlist [],
         user_prompt := Value.none }] ∧
    (execute (nodeOf stubEmptyModel) stateNoPrompt).ret =
      Except.ok (stateNoPrompt ++ [("relevant_links", Value.vdict [])]) := by
  constructor <;> rfl

/-- Claim C2: if a per-chunk step fails (backend-invocation error or parse
error), the error propagates to the caller and the state dict of the
caller is
left exactly as it was: in particular no `relevant_links` key holding a
partial accumulator is written. -/
theorem execute_error_state_unchanged (node : SearchLinkNode) (st : PyDict)
    (e : String) (h : (execute node st).ret = Except.error e) :
    (execute node st).finalState = st := by
  cases hiter : pyIter (dget st "parsed_doc") with
  | error e' => simp [execute, hiter]
  | ok chunks =>
      cases hproc : processChunks node.llm_model (dget st "link_urls")
          (dget st "user_prompt") (tqdm chunks (!(cvTruthy node.verbose))) [] with
      | mk tr r =>
          cases r with
          | error e' => simp [execute, hiter, hproc]
          | ok rl => simp [execute, hiter, hproc] at h

/-- Witness for C2: a concrete run whose single chunk invocation raises;
the exception surfaces in the return and the state is unchanged (no
`relevant_links` key is present afterwards). -/
theorem execute_error_state_unchanged_witness :
    (execute (nodeOf stubFailModel) stateNoPrompt).ret =
      Except.error "OutputParserException" ∧
    (execute (nodeOf stubFailModel) stateNoPrompt).finalState = stateNoPrompt ∧
    alFind? (execute (nodeOf stubFailModel) stateNoPrompt).finalState
      "relevant_links" = Option.none :=
  ⟨rfl,
   execute_error_state_unchanged (nodeOf stubFailModel) stateNoPrompt
     "OutputParserException" rfl,
   by rw [execute_error_state_unchanged (nodeOf stubFailModel) stateNoPrompt
        "OutputParserException" rfl]; rfl⟩

/-- A state carrying all three input keys and a two-chunk `parsed_doc`. -/
def stateTwoChunks : PyDict :=
  [("user_prompt", Value.str "task"),
   ("link_urls", Value.vlist [Value.str "https://a.com/x"]),
   ("parsed_doc", Value.vlist [Value.str "c1", Value.str "c2"])]

/-- Claim C3: when `parsed_doc` is a non-empty sequence of `n` chunks and the
run completes, exactly `n` backend invocations are made, in strict input
order, and the `i`-th invocation carries the `i`-th chunk (together with the
whole `link_urls` value and the `user_prompt` value): the trace equals the
chunk list mapped to chain inputs pointwise. -/
theorem execute_one_invocation_per_chunk (node : SearchLinkNode) (st : PyDict)
    (chunks : List Value)
    (hdoc : dget st "parsed_doc" = Value.vlist chunks)
    (hne : chunks ≠ [])
    (hok : ∃ out, (execute node st).ret = Except.ok out) :
    (execute node st).trace =
      chunks.map (fun c =>
        { content := c, links := dget st "link_urls",
          user_prompt := dget st "user_prompt" }) ∧
    (execute node st).trace.length = chunks.length := by
  obtain ⟨out, hout⟩ := hok
  rw [execute_vlist node st chunks hdoc] at hout ⊢
  cases hproc : processChunks node.llm_model (dget st "link_urls")
      (dget st "user_prompt") chunks [] with
  | mk tr r =>
      rw [hproc] at hout
      cases r with
      | error e => simp at hout
      | ok rl =>
          have h2 : (processChunks node.llm_model (dget st "link_urls")
              (dget st "user_prompt") chunks []).2 = Except.ok rl := by
            rw [hproc]
          have htr' : tr = chunks.map (fun c =>
              { content := c, links := dget st "link_urls",
                user_prompt := dget st "user_prompt" }) := by
            have htr := processChunks_ok_trace node.llm_model (dget st "link_urls")
              (dget st "user_prompt") chunks [] rl h2
            rw [hproc] at htr
            exact htr
          constructor
          · exact htr'
          · show tr.length = chunks.length
            rw [htr', List.length_map]

/-- Witness for C3: a two-chunk run makes exactly two invocations carrying
the two chunks in order. -/
theorem execute_one_invocation_per_chunk_witness :
    dget stateTwoChunks "parsed_doc" =
      Value.vlist [Value.str "c1", Value.str "c2"] ∧
    (execute (nodeOf stubEmptyModel) stateTwoChunks).trace =
      [{ content := Value.str "c1",
         links := Value.vlist [Value.str "https://a.com/x"],
         user_prompt := Value.str "task" },
       { content := Value.str "c2",
         links := Value.vlist [Value.str "https://a.com/x"],
         user_prompt := Value.str "task" }] ∧
    (execute (nodeOf stubEmptyModel) stateTwoChunks).trace.length = 2 :=
  ⟨rfl,
   (execute_one_invocation_per_chunk (nodeOf stubEmptyModel) stateTwoChunks
      [Value.str "c1", Value.str "c2"] rfl (by simp) ⟨_, rfl⟩).1,
   (execute_one_invocation_per_chunk (nodeOf stubEmptyModel) stateTwoChunks
      [Value.str "c1", Value.str "c2"] rfl (by simp) ⟨_, rfl⟩).2⟩

/-- Claim C4: merge law (last-write-wins).  In a run over two chunks where
the parsed response of the earlier chunk maps key `x` to `d1` and that
of the later chunk maps the same `x` to `d2`, the run succeeds and the final
`relevant_links` maps `x` to `d2`. -/
theorem merge_last_write_wins (node : SearchLinkNode) (st : PyDict)
    (cA cB : Value) (x : String) (d1 d2 : Value)
    (hdoc : dget st "parsed_doc" = Value.vlist [cA, cB])
    (hA : invokeChain node.llm_model
        { content := cA, links := dget st "link_urls",
          user_prompt := dget st "user_prompt" } = Except.ok [(x, d1)])
    (hB : invokeChain node.llm_model
        { content := cB, links := dget st "link_urls",
          user_prompt := dget st "user_prompt" } = Except.ok [(x, d2)]) :
    (execute node st).ret = Except.ok (execute node st).finalState ∧
    dget (execute node st).finalState "relevant_links" = Value.vdict [(x, d2)] := by
  have hproc : processChunks node.llm_model (dget st "link_urls")
      (dget st "user_prompt") [cA, cB] [] =
      ([{ content := cA, links := dget st "link_urls",
          user_prompt := dget st "user_prompt" },
        { content := cB, links := dget st "link_urls",
          user_prompt := dget st "user_prompt" }],
       Except.ok [(x, d2)]) := by
    simp [processChunks, hA, hB, dictUpdate, List.foldl, setItem]
  rw [execute_vlist node st _ hdoc, hproc]
  refine ⟨rfl, ?_⟩
  show dget (dictUpdate st [("relevant_links", Value.vdict [(x, d2)])])
      "relevant_links" = Value.vdict [(x, d2)]
  rw [dictUpdate_singleton, dget_setItem_self]

/-- Claim C5: merge of disjoint keys.  In a run over two chunks whose parsed
responses bind distinct keys `x` and `y`, the final `relevant_links` is
exactly the union of the two mappings. -/
theorem merge_disjoint_union (node : SearchLinkNode) (st : PyDict)
    (cA cB : Value) (x y : String) (d1 d2 : Value) (hxy : x ≠ y)
    (hdoc : dget st "parsed_doc" = Value.vlist [cA, cB])
    (hA : invokeChain node.llm_model
        { content := cA, links := dget st "link_urls",
          user_prompt := dget st "user_prompt" } = Except.ok [(x, d1)])
    (hB : invokeChain node.llm_model
        { content := cB, links := dget st "link_urls",
          user_prompt := dget st "user_prompt" } = Except.ok [(y, d2)]) :
    (execute node st).ret = Except.ok (execute node st).finalState ∧
    dget (execute node st).finalState "relevant_links" =
      Value.vdict [(x, d1), (y, d2)] := by
  have hbeq : (x == y) = false := beq_eq_false_iff_ne.mpr hxy
  have hproc : processChunks node.llm_model (dget st "link_urls")
      (dget st "user_prompt") [cA, cB] [] =
      ([{ content := cA, links := dget st "link_urls",
          user_prompt := dget st "user_prompt" },
        { content := cB, links := dget st "link_urls",
          user_prompt := dget st "user_prompt" }],
       Except.ok [(x, d1), (y, d2)]) := by
    simp [processChunks, hA, hB, dictUpdate, List.foldl, setItem, hbeq]
  rw [execute_vlist node st _ hdoc, hproc]
  refine ⟨rfl, ?_⟩
  show dget (dictUpdate st [("relevant_links", Value.vdict [(x, d1), (y, d2)])])
      "relevant_links" = Value.vdict [(x, d1), (y, d2)]
  rw [dictUpdate_singleton, dget_setItem_self]

/-- Claim C6: frame property.  On success, the returned value is the
state of the caller with the single key `relevant_links` added or
overwritten
(to the merged accumulator), and every other key maps to the same value as
before; no key is removed or renamed. -/
theorem execute_frame (node : SearchLinkNode) (st : PyDict) (out : PyDict)
    (h : (execute node st).ret = Except.ok out) :
    out = (execute node st).finalState ∧
    (∃ rl, (execute node st).finalState =
        setItem st "relevant_links" (Value.vdict rl) ∧
      dget (execute node st).finalState "relevant_links" = Value.vdict rl) ∧
    ∀ k, k ≠ "relevant_links" →
      dget (execute node st).finalState k = dget st k := by
  cases hiter : pyIter (dget st "parsed_doc") with
  | error e => simp [execute, hiter] at h
  | ok chunks =>
      cases hproc : processChunks node.llm_model (dget st "link_urls")
          (dget st "user_prompt") (tqdm chunks (!(cvTruthy node.verbose))) [] with
      | mk tr r =>
          cases r with
          | error e => simp [execute, hiter, hproc] at h
          | ok rl =>
              have hfs : (execute node st).finalState =
                  setItem st "relevant_links" (Value.vdict rl) := by
                simp [execute, hiter, hproc, dictUpdate_singleton]
              have hret : (execute node st).ret =
                  Except.ok (setItem st "relevant_links" (Value.vdict rl)) := by
                simp [execute, hiter, hproc, dictUpdate_singleton]
              rw [hret] at h
              refine ⟨?_, ⟨rl, hfs, ?_⟩, ?_⟩
              · rw [hfs]; exact (Except.ok.inj h).symm
              · rw [hfs, dget_setItem_self]
              · intro k hk
                rw [hfs, dget_setItem_ne st "relevant_links" k _ hk]

/-- Witness for C6: a concrete successful run returns the input state with
`relevant_links` appended and leaves `user_prompt` untouched. -/
theorem execute_frame_witness :
    (execute (nodeOf stubEmptyModel) stateTwoChunks).ret =
      Except.ok (stateTwoChunks ++ [("relevant_links", Value.vdict [])]) ∧
    stateTwoChunks ++ [("relevant_links", Value.vdict [])] =
      (execute (nodeOf stubEmptyModel) stateTwoChunks).finalState ∧
    dget (execute (nodeOf stubEmptyModel) stateTwoChunks).finalState
      "user_prompt" = dget stateTwoChunks "user_prompt" :=
  ⟨rfl,
   (execute_frame (nodeOf stubEmptyModel) stateTwoChunks
      (stateTwoChunks ++ [("relevant_links", Value.vdict [])]) rfl).1,
   (execute_frame (nodeOf stubEmptyModel) stateTwoChunks
      (stateTwoChunks ++ [("relevant_links", Value.vdict [])]) rfl).2.2
     "user_prompt" (by decide)⟩

/-- A state carrying the input keys with an empty `parsed_doc`. -/
def stateEmptyDoc : PyDict :=
  [("user_prompt", Value.str "task"),
   ("link_urls", Value.vlist [Value.str "https://a.com/x"]),
   ("parsed_doc", Value.vlist [])]

/-- Claim C7: with an empty `parsed_doc`, no backend invocation is made and
the returned state maps `relevant_links` to the empty mapping. -/
theorem execute_empty_parsed_doc (node : SearchLinkNode) (st : PyDict)
    (hdoc : dget st "parsed_doc" = Value.vlist []) :
    (execute node st).trace = [] ∧
    (execute node st).ret =
      Except.ok (setItem st "relevant_links" (Value.vdict [])) ∧
    dget (execute node st).finalState "relevant_links" = Value.vdict [] := by
  rw [execute_vlist node st [] hdoc]
  refine ⟨rfl, rfl, ?_⟩
  show dget (dictUpdate st [("relevant_links", Value.vdict [])])
      "relevant_links" = Value.vdict []
  rw [dictUpdate_singleton, dget_setItem_self]

/-- Witness for C7: concrete empty-`parsed_doc` run. -/
theorem execute_empty_parsed_doc_witness :
    dget stateEmptyDoc "parsed_doc" = Value.vlist [] ∧
    ((execute (nodeOf stubEmptyModel) stateEmptyDoc).trace = [] ∧
     (execute (nodeOf stubEmptyModel) stateEmptyDoc).ret =
       Except.ok (setItem stateEmptyDoc "relevant_links" (Value.vdict [])) ∧
     dget (execute (nodeOf stubEmptyModel) stateEmptyDoc).finalState
       "relevant_links" = Value.vdict []) :=
  ⟨rfl, execute_empty_parsed_doc (nodeOf stubEmptyModel) stateEmptyDoc rfl⟩

/-- A model handle answering chunk `"cA"` with `x ↦ d1` and every other
chunk with `x ↦ d2`, exercising the last-write-wins merge law. -/
def modelLastWrite : ConfigValue :=
  ConfigValue.model (fun inp =>
    match inp.content with
    | Value.str "cA" => Except.ok [("https://a.com/x", Value.str "d1")]
    | _ => Except.ok [("https://a.com/x", Value.str "d2")])

/-- A model handle answering chunk `"cA"` with `x ↦ d1` and every other
chunk with `y ↦ d2`, exercising the disjoint merge law. -/
def modelDisjoint : ConfigValue :=
  ConfigValue.model (fun inp =>
    match inp.content with
    | Value.str "cA" => Except.ok [("https://a.com/x", Value.str "d1")]
    | _ => Except.ok [("https://a.com/y", Value.str "d2")])

/-- A state whose `parsed_doc` holds the two chunks `"cA"` and `"cB"`. -/
def stateAB : PyDict :=
  [("user_prompt", Value.str "task"),
   ("link_urls", Value.vlist [Value.str "https://a.com/x"]),
   ("parsed_doc", Value.vlist [Value.str "cA", Value.str "cB"])]

/-- Witness for C4: a concrete two-chunk run where both chunks bind the
same key; the later binding wins. -/
theorem merge_last_write_wins_witness :
    dget stateAB "parsed_doc" = Value.vlist [Value.str "cA", Value.str "cB"] ∧
    ((execute (nodeOf modelLastWrite) stateAB).ret =
        Except.ok (execute (nodeOf modelLastWrite) stateAB).finalState ∧
      dget (execute (nodeOf modelLastWrite) stateAB).finalState
        "relevant_links" = Value.vdict [("https://a.com/x", Value.str "d2")]) :=
  ⟨rfl,
   merge_last_write_wins (nodeOf modelLastWrite) stateAB (Value.str "cA")
     (Value.str "cB") "https://a.com/x" (Value.str "d1") (Value.str "d2")
     rfl rfl rfl⟩

/-- Witness for C5: a concrete two-chunk run with disjoint keys; the final
mapping is the union. -/
theorem merge_disjoint_union_witness :
    "https://a.com/x" ≠ "https://a.com/y" ∧
    ((execute (nodeOf modelDisjoint) stateAB).ret =
        Except.ok (execute (nodeOf modelDisjoint) stateAB).finalState ∧
      dget (execute (nodeOf modelDisjoint) stateAB).finalState
        "relevant_links" =
        Value.vdict [("https://a.com/x", Value.str "d1"),
                     ("https://a.com/y", Value.str "d2")]) :=
  ⟨by decide,
   merge_disjoint_union (nodeOf modelDisjoint) stateAB (Value.str "cA")
     (Value.str "cB") "https://a.com/x" "https://a.com/y" (Value.str "d1")
     (Value.str "d2") (by decide) rfl rfl rfl⟩

/-- Claim C8: constructing a `SearchLinkNode` with no configuration object
(`node_config = None`) or with a configuration lacking the backend handle
key `llm_model` raises (`TypeError` respectively `KeyError`) and produces
no node instance. -/
theorem init_missing_llm_model_fails (node_config : Option NodeConfig)
    (node_name : String)
    (h : node_config = Option.none ∨
      ∃ cfg, node_config = Option.some cfg ∧
        alFind? cfg "llm_model" = Option.none) :
    ∃ e, searchLinkNodeInit node_config node_name = Except.error e := by
  cases h with
  | inl h0 => exact ⟨_, by rw [h0]; rfl⟩
  | inr h1 =>
      obtain ⟨cfg, hcfg, hfind⟩ := h1
      refine ⟨"KeyError: llm_model", ?_⟩
      rw [hcfg]
      simp [searchLinkNodeInit, pySubscript, hfind]

/-- Witness for C8: construction fails both for `None` and for a config
holding only `verbose`. -/
theorem init_missing_llm_model_fails_witness :
    (∃ e, searchLinkNodeInit Option.none "SearchRelevantLinkNode" =
      Except.error e) ∧
    (∃ e, searchLinkNodeInit
        (Option.some [("verbose", ConfigValue.val (Value.bool true))])
        "SearchRelevantLinkNode" = Except.error e) :=
  ⟨init_missing_llm_model_fails Option.none "SearchRelevantLinkNode"
     (Or.inl rfl),
   init_missing_llm_model_fails
     (Option.some [("verbose", ConfigValue.val (Value.bool true))])
     "SearchRelevantLinkNode" (Or.inr ⟨_, rfl, rfl⟩)⟩

/-- Claim C9: `verbose` controls progress logging only.  Two nodes sharing
the same model handle but with arbitrary (in particular opposite) `verbose`
values produce identical results — same invocation trace, same return
value, same final state — on every input state. -/
theorem verbose_no_observable_effect (nm : String) (m : ConfigValue)
    (v1 v2 : ConfigValue) (st : PyDict) :
    execute { node_name := nm, llm_model := m, verbose := v1 } st =
    execute { node_name := nm, llm_model := m, verbose := v2 } st := rfl

/-- Claim C10: when construction succeeds, `node_config` is a non-`None`
mapping containing `llm_model` (the subscription would have raised
otherwise), so the `None` branch of the `verbose` conditional is
unreachable: `computeVerbose` agrees with plain
`node_config.get("verbose", False)`, and that is the `verbose` value of
the constructed node. -/
theorem init_ok_verbose_from_config (node_config : Option NodeConfig)
    (node_name : String) (node : SearchLinkNode)
    (h : searchLinkNodeInit node_config node_name = Except.ok node) :
    ∃ cfg, node_config = Option.some cfg ∧
      (alFind? cfg "llm_model").isSome = true ∧
      computeVerbose node_config =
        alGetD cfg "verbose" (ConfigValue.val (Value.bool false)) ∧
      node.verbose = alGetD cfg "verbose" (ConfigValue.val (Value.bool false)) := by
  cases node_config with
  | none => simp [searchLinkNodeInit, pySubscript] at h
  | some cfg =>
      cases hfind : alFind? cfg "llm_model" with
      | none => simp [searchLinkNodeInit, pySubscript, hfind] at h
      | some m =>
          have hinit : searchLinkNodeInit (Option.some cfg) node_name =
              Except.ok
                { node_name := node_name
                  llm_model := m
                  verbose := computeVerbose (Option.some cfg) } := by
            simp [searchLinkNodeInit, pySubscript, hfind]
          rw [hinit] at h
          have hnode := Except.ok.inj h
          refine ⟨cfg, rfl, ?_, rfl, ?_⟩
          · rw [hfind]; rfl
          · rw [← hnode]; rfl

/-- A configuration holding a model handle and `verbose=True`. -/
def cfgFull : NodeConfig :=
  [("llm_model", stubEmptyModel), ("verbose", ConfigValue.val (Value.bool true))]

/-- The node constructed from `cfgFull`. -/
def nodeFull : SearchLinkNode :=
  { node_name := "SearchRelevantLinkNode", llm_model := stubEmptyModel,
    verbose := ConfigValue.val (Value.bool true) }

/-- Witness for C10: a concrete successful construction whose `verbose`
comes from the configuration. -/
theorem init_ok_verbose_from_config_witness :
    searchLinkNodeInit (Option.some cfgFull) "SearchRelevantLinkNode" =
      Except.ok nodeFull ∧
    ∃ cfg, (Option.some cfgFull : Option NodeConfig) = Option.some cfg ∧
      (alFind? cfg "llm_model").isSome = true ∧
      computeVerbose (Option.some cfgFull) =
        alGetD cfg "verbose" (ConfigValue.val (Value.bool false)) ∧
      nodeFull.verbose = alGetD cfg "verbose" (ConfigValue.val (Value.bool false)) :=
  ⟨rfl,
   init_ok_verbose_from_config (Option.some cfgFull) "SearchRelevantLinkNode"
     nodeFull rfl⟩

end SearchLink
